import Mathlib

/-!
Verification of the decoding/normalisation engine of the `pafeed` repository
(horse- and greyhound-racing feed decoders) against its design document.

The Go source is embedded shallowly:

* `time.Time` values are modelled by `GoTime`, a record of broken-down
  calendar/clock fields plus a fixed-zone offset in minutes (the only way the
  package uses locations).  The Go zero `time.Time` has year 1; values built
  by `time.Parse` without a year in the layout have year 0.
* Go's `time.Parse` for the fixed layouts used by the package is modelled by
  one parser per layout (`parse8` … `parse20T`), including Go's range
  validation of month/day/hour/minute/second fields.
* The external `advbet/decimal` library (out of scope per the design, §1) is
  modelled by `DecimalNum` (integer mantissa, number of fractional digits)
  with `DecimalNum.scaledVal` as truncating scaling and `decimalFromString`
  accepting unsigned fixed-point literals, the shapes the feed carries.
* Fallible decoding returns `Except String α`; `encoding/xml` struct decoding
  is modelled per entity as a function from a raw record of attribute values
  (`Option String` for attributes whose absence matters, already-decoded
  values for child elements none of the claims inspect) to the entity.
-/

/-- Broken-down Go `time.Time`: calendar and clock fields plus the fixed-zone
offset in minutes that `time.Parse` attaches for `-0700`-style zones. -/
structure GoTime where
  year : Nat
  month : Nat
  day : Nat
  hour : Nat
  minute : Nat
  second : Nat
  /-- zone offset east of UTC, in minutes -/
  offset : Int
  deriving Repr, DecidableEq

/-- The zero `time.Time` (`var tm time.Time`): January 1, year 1, 00:00:00 UTC. -/
def goZeroTime : GoTime := ⟨1, 1, 1, 0, 0, 0, 0⟩

/-- Fields are in the ranges that `time.Time` accessors (`Date()`, `Clock()`)
always produce; used to state claims about real timestamps. -/
def GoTime.Valid (t : GoTime) : Prop :=
  1 ≤ t.month ∧ t.month ≤ 12 ∧ 1 ≤ t.day ∧ t.day ≤ 31 ∧
    t.hour < 24 ∧ t.minute < 60 ∧ t.second < 60

instance (t : GoTime) : Decidable t.Valid := by
  unfold GoTime.Valid; infer_instance

/-- `addDate` from `greyhounds/racing.go`: clock fields of `t`, calendar
fields of `date`, zero nanoseconds, location (zone offset) of `t`.
`time.Date` normalisation never fires here because `Clock()`/`Date()` always
return in-range fields. -/
def addDate (t : GoTime) (date : GoTime) : GoTime :=
  { year := date.year, month := date.month, day := date.day
    hour := t.hour, minute := t.minute, second := t.second
    offset := t.offset }

/-- `xmlYesNo.UnmarshalXMLAttr` from `greyhounds/racing.go`: the switch over
the attribute value with its default error branch. -/
def xmlYesNoUnmarshalAttr (name value : String) : Except String Bool :=
  if value = "yes" || value = "Yes" then .ok true
  else if value = "no" || value = "No" then .ok false
  else .error s!"parsing {name} attribute as Yes/No field, unexpected value: {value}"

/-- Absent boolean attribute: `encoding/xml` never calls the attr unmarshaler,
the field keeps its zero value `false`. -/
def optYesNo (name : String) : Option String → Except String Bool
  | none => .ok false
  | some v => xmlYesNoUnmarshalAttr name v

/-- Model of the external `advbet/decimal` `Number`: mantissa and the number
of digits after the decimal point; the represented value is
`mantissa / 10 ^ fracDigits`. -/
structure DecimalNum where
  mantissa : Int
  fracDigits : Nat
  deriving Repr, DecidableEq

/-- The rational value a `DecimalNum` stands for. -/
def DecimalNum.val (n : DecimalNum) : ℚ :=
  (n.mantissa : ℚ) / 10 ^ n.fracDigits

/-- Model of `decimal.Number.ScaledVal e`: the integer part of the value
scaled by `10 ^ (-e)` (the package only calls it on non-negative numbers,
where truncation towards zero is plain division). -/
def DecimalNum.scaledVal (n : DecimalNum) (e : Int) : Int :=
  (n.mantissa * 10 ^ (-(e + n.fracDigits)).toNat) / (10 ^ (e + n.fracDigits).toNat : Int)

/-- Model of `decimal.FromInt`. -/
def decFromInt (n : Int) : DecimalNum := ⟨n, 0⟩

/-- Value of a non-empty digit run. -/
def digitsVal? (l : List Char) : Option Nat :=
  if l = [] then none
  else l.foldlM (fun acc c => if c.isDigit then some (acc * 10 + (c.toNat - 48)) else none) 0

/-- Split a character list at each `.` (the semantics of `strings.Split` on
a one-character separator). -/
def splitOnDot : List Char → List (List Char)
  | [] => [[]]
  | c :: rest =>
      match splitOnDot rest with
      | [] => [[]]
      | p :: ps => if c = '.' then [] :: p :: ps else (c :: p) :: ps

/-- Model of the external `advbet/decimal` `FromString`, restricted to the
unsigned fixed-point literals the feed's duration attributes carry
(design §4.3): a non-empty digit run, optionally followed by `.` and a
non-empty digit run. -/
def decimalFromString (s : String) : Option DecimalNum :=
  match splitOnDot s.data with
  | [a] => (digitsVal? a).map (fun m => DecimalNum.mk (Int.ofNat m) 0)
  | [a, b] =>
      match digitsVal? a, digitsVal? b with
      | some ma, some mb =>
          some (DecimalNum.mk (Int.ofNat (ma * 10 ^ b.length + mb)) b.length)
      | _, _ => none
  | _ => none

deriving instance DecidableEq for Except

/-- Go `time.Duration` constants, in nanoseconds. -/
def goMillisecond : Int := 1000000
/-- One second in nanoseconds. -/
def goSecond : Int := 1000000000
/-- One minute in nanoseconds. -/
def goMinute : Int := 60000000000
/-- One hour in nanoseconds. -/
def goHour : Int := 3600000000000

/-- `parseDuration` from `greyhounds/racing.go`: empty string is zero, other
strings go through the decimal library and are split into hour/minute/second/
millisecond views of the same value.  The result is a `time.Duration` in
nanoseconds. -/
def parseDuration (s : String) : Except String Int :=
  if s = "" then .ok 0
  else
    match decimalFromString s with
    | none => .error s!"parsing {s} as decimal number"
    | some n =>
        let hour := n.scaledVal 4 % 100
        let mins := n.scaledVal 2 % 100
        let secs := n.scaledVal 0 % 100
        let mils := n.scaledVal (-3) % 1000
        .ok (goHour * hour + goMinute * mins + goSecond * secs + goMillisecond * mils)

/-- `Price` from `greyhounds/racing.go`: decimal representation plus the
fractional odds as a rational (`big.Rat`). -/
structure Price where
  decimal : DecimalNum
  fractional : ℚ
  deriving Repr, DecidableEq

/-- `xmlPrice.UnmarshalXML` from `greyhounds/racing.go`: the `decimal`,
`numerator`, `denominator` attributes are decoded first (absent numeric
attributes keep their zero value), then the fraction is built with
`big.NewRat` only when the denominator is non-zero; otherwise it stays the
zero `big.Rat`. -/
def xmlPriceUnmarshal (dec : DecimalNum) (numerator denominator : Int) : Price :=
  { decimal := dec
    fractional := if denominator ≠ 0 then (numerator : ℚ) / (denominator : ℚ) else 0 }

/-! ### The temporal literal parser (`xmlTimeElement.UnmarshalXMLAttr`)

Go's `time.Parse` for the fixed numeric layouts used by the package is
modelled one layout per function, over the character list of the literal,
including Go's validation of month/day (calendar-aware) and
hour/minute/second ranges.  Zone offsets `±hhmm` are read as signed minutes
without a range check, as `time.Parse` does. -/

/-- Value of a decimal digit character. -/
def digitVal? (c : Char) : Option Nat :=
  if c.isDigit then some (c.toNat - 48) else none

/-- Two-digit field. -/
def num2 (a b : Char) : Option Nat :=
  match digitVal? a, digitVal? b with
  | some x, some y => some (10 * x + y)
  | _, _ => none

/-- Four-digit field. -/
def num4 (a b c d : Char) : Option Nat :=
  match num2 a b, num2 c d with
  | some x, some y => some (100 * x + y)
  | _, _ => none

/-- Gregorian leap year, as Go's `isLeap`. -/
def isLeap (y : Nat) : Bool :=
  y % 4 = 0 && (y % 100 ≠ 0 || y % 400 = 0)

/-- Days in a month, as Go's `daysIn`. -/
def daysInMonth (y m : Nat) : Nat :=
  if m = 2 then (if isLeap y then 29 else 28)
  else if m = 4 ∨ m = 6 ∨ m = 9 ∨ m = 11 then 30
  else 31

/-- `time.Parse`'s month/day range validation. -/
def validDate (y mo d : Nat) : Bool :=
  1 ≤ mo && mo ≤ 12 && 1 ≤ d && d ≤ daysInMonth y mo

/-- `time.Parse`'s hour/minute/second range validation. -/
def validClock (h mi s : Nat) : Bool :=
  h < 24 && mi < 60 && s < 60

/-- `±hhmm` numeric zone: signed offset in minutes. -/
def parseZone (sgn h1 h2 m1 m2 : Char) : Option Int :=
  match num2 h1 h2, num2 m1 m2 with
  | some zh, some zm =>
      if sgn = '+' then some ((zh * 60 + zm : Nat) : Int)
      else if sgn = '-' then some (-((zh * 60 + zm : Nat) : Int))
      else none
  | _, _ => none

/-- Layout `20060102`. -/
def parseLayoutDate8 : List Char → Option GoTime
  | [y1, y2, y3, y4, o1, o2, d1, d2] =>
      match num4 y1 y2 y3 y4, num2 o1 o2, num2 d1 d2 with
      | some y, some mo, some dd =>
          if validDate y mo dd then some ⟨y, mo, dd, 0, 0, 0, 0⟩ else none
      | _, _, _ => none
  | _ => none

/-- Layout `1504-0700` (time-of-day; the unset date defaults to year 0,
January 1). -/
def parseLayoutTime9 : List Char → Option GoTime
  | [h1, h2, m1, m2, sg, z1, z2, z3, z4] =>
      match num2 h1 h2, num2 m1 m2, parseZone sg z1 z2 z3 z4 with
      | some h, some mi, some off =>
          if validClock h mi 0 then some ⟨0, 1, 1, h, mi, 0, off⟩ else none
      | _, _, _ => none
  | _ => none

/-- Layout `02/01/2006`. -/
def parseLayoutDateSlash10 : List Char → Option GoTime
  | [d1, d2, s1, o1, o2, s2, y1, y2, y3, y4] =>
      if s1 = '/' ∧ s2 = '/' then
        match num2 d1 d2, num2 o1 o2, num4 y1 y2 y3 y4 with
        | some dd, some mo, some y =>
            if validDate y mo dd then some ⟨y, mo, dd, 0, 0, 0, 0⟩ else none
        | _, _, _ => none
      else none
  | _ => none

/-- Layout `02-01-2006`. -/
def parseLayoutDateDash10 : List Char → Option GoTime
  | [d1, d2, s1, o1, o2, s2, y1, y2, y3, y4] =>
      if s1 = '-' ∧ s2 = '-' then
        match num2 d1 d2, num2 o1 o2, num4 y1 y2 y3 y4 with
        | some dd, some mo, some y =>
            if validDate y mo dd then some ⟨y, mo, dd, 0, 0, 0, 0⟩ else none
        | _, _, _ => none
      else none
  | _ => none

/-- Layout `150405-0700`. -/
def parseLayoutTime11 : List Char → Option GoTime
  | [h1, h2, m1, m2, c1, c2, sg, z1, z2, z3, z4] =>
      match num2 h1 h2, num2 m1 m2, num2 c1 c2, parseZone sg z1 z2 z3 z4 with
      | some h, some mi, some se, some off =>
          if validClock h mi se then some ⟨0, 1, 1, h, mi, se, off⟩ else none
      | _, _, _, _ => none
  | _ => none

/-- Layout `200601021504-0700`. -/
def parseLayoutFull17 : List Char → Option GoTime
  | [y1, y2, y3, y4, o1, o2, d1, d2, h1, h2, m1, m2, sg, z1, z2, z3, z4] =>
      match num4 y1 y2 y3 y4, num2 o1 o2, num2 d1 d2, num2 h1 h2, num2 m1 m2,
          parseZone sg z1 z2 z3 z4 with
      | some y, some mo, some dd, some h, some mi, some off =>
          if validDate y mo dd && validClock h mi 0 then
            some ⟨y, mo, dd, h, mi, 0, off⟩
          else none
      | _, _, _, _, _, _ => none
  | _ => none

/-- Layout `20060102T1504-0700`. -/
def parseLayoutFull18 : List Char → Option GoTime
  | [y1, y2, y3, y4, o1, o2, d1, d2, t, h1, h2, m1, m2, sg, z1, z2, z3, z4] =>
      if t = 'T' then
        match num4 y1 y2 y3 y4, num2 o1 o2, num2 d1 d2, num2 h1 h2, num2 m1 m2,
            parseZone sg z1 z2 z3 z4 with
        | some y, some mo, some dd, some h, some mi, some off =>
            if validDate y mo dd && validClock h mi 0 then
              some ⟨y, mo, dd, h, mi, 0, off⟩
            else none
        | _, _, _, _, _, _ => none
      else none
  | _ => none

/-- Layout `20060102150405-0700`. -/
def parseLayoutFull19 : List Char → Option GoTime
  | [y1, y2, y3, y4, o1, o2, d1, d2, h1, h2, m1, m2, c1, c2, sg, z1, z2, z3, z4] =>
      match num4 y1 y2 y3 y4, num2 o1 o2, num2 d1 d2, num2 h1 h2, num2 m1 m2,
          num2 c1 c2, parseZone sg z1 z2 z3 z4 with
      | some y, some mo, some dd, some h, some mi, some se, some off =>
          if validDate y mo dd && validClock h mi se then
            some ⟨y, mo, dd, h, mi, se, off⟩
          else none
      | _, _, _, _, _, _, _ => none
  | _ => none

/-- Layout `20060102T150405-0700`. -/
def parseLayoutFull20 : List Char → Option GoTime
  | [y1, y2, y3, y4, o1, o2, d1, d2, t, h1, h2, m1, m2, c1, c2, sg, z1, z2, z3, z4] =>
      if t = 'T' then
        match num4 y1 y2 y3 y4, num2 o1 o2, num2 d1 d2, num2 h1 h2, num2 m1 m2,
            num2 c1 c2, parseZone sg z1 z2 z3 z4 with
        | some y, some mo, some dd, some h, some mi, some se, some off =>
            if validDate y mo dd && validClock h mi se then
              some ⟨y, mo, dd, h, mi, se, off⟩
            else none
        | _, _, _, _, _, _, _ => none
      else none
  | _ => none

/-- Wraps a `time.Parse` result the way the attribute unmarshaler surfaces
it: a parse failure becomes the `fmt.Errorf` message naming the attribute
and value. -/
def timeParseResult (name value : String) : Option GoTime → Except String GoTime
  | some t => .ok t
  | none => .error s!"parsing {name} attribute ({value}): time parse error"

/-- `xmlTimeElement.UnmarshalXMLAttr` from `greyhounds/racing.go`: dispatch
on literal length; length 10 picks `/`- or `-`-separated layout by whether
`strings.Split(value, "/")` has 3 parts, i.e. the value has exactly two
slashes.  A length outside the switch leaves `err = nil` and `tm` the zero
`time.Time`, so decoding silently succeeds with the zero timestamp. -/
def xmlTimeElementUnmarshalAttr (name value : String) : Except String GoTime :=
  if value.length = 8 then timeParseResult name value (parseLayoutDate8 value.data)
  else if value.length = 9 then timeParseResult name value (parseLayoutTime9 value.data)
  else if value.length = 10 then
    (if value.data.count '/' = 2 then
      timeParseResult name value (parseLayoutDateSlash10 value.data)
    else timeParseResult name value (parseLayoutDateDash10 value.data))
  else if value.length = 11 then timeParseResult name value (parseLayoutTime11 value.data)
  else if value.length = 17 then timeParseResult name value (parseLayoutFull17 value.data)
  else if value.length = 18 then timeParseResult name value (parseLayoutFull18 value.data)
  else if value.length = 19 then timeParseResult name value (parseLayoutFull19 value.data)
  else if value.length = 20 then timeParseResult name value (parseLayoutFull20 value.data)
  else .ok goZeroTime

/-- Decoding of an optional time attribute: an absent attribute never calls
the unmarshaler and leaves the zero `time.Time` (year 1). -/
def optTimeAttr (name : String) : Option String → Except String GoTime
  | none => .ok goZeroTime
  | some v => xmlTimeElementUnmarshalAttr name v

/-! ### C3: the duration decoder -/

/-- Every accepted decimal literal has a natural-number mantissa. -/
theorem decimalFromString_mantissa (s : String) (n : DecimalNum)
    (h : decimalFromString s = some n) : ∃ m : ℕ, n.mantissa = (m : Int) := by
  unfold decimalFromString at h
  split at h
  · rw [Option.map_eq_some'] at h
    obtain ⟨ma, _, hf⟩ := h
    refine ⟨ma, ?_⟩
    rw [← hf]
    rfl
  · rename_i a b _heq
    split at h
    · rename_i ma mb hma hmb
      refine ⟨ma * 10 ^ b.length + mb, ?_⟩
      rw [← Option.some.inj h]
      rfl
    · exact Option.noConfusion h
  · exact Option.noConfusion h

/-- `scaledVal` at a non-negative scale, on a natural mantissa, is plain
natural division after shifting the point. -/
theorem scaledVal_nonneg_scale (m d k : ℕ) :
    DecimalNum.scaledVal ⟨(m : Int), d⟩ (k : Int) = ((m / 10 ^ (d + k) : ℕ) : Int) := by
  unfold DecimalNum.scaledVal
  have h1 : (-((k : Int) + (d : Nat))).toNat = 0 := by omega
  have h2 : (((k : Int)) + (d : Nat)).toNat = d + k := by omega
  rw [h1, h2]
  push_cast
  ring_nf

/-- `scaledVal` at scale `-3`, on a natural mantissa, multiplies by 1000
before truncating. -/
theorem scaledVal_neg3 (m d : ℕ) :
    DecimalNum.scaledVal ⟨(m : Int), d⟩ (-3) = ((m * 1000 / 10 ^ d : ℕ) : Int) := by
  unfold DecimalNum.scaledVal
  rcases Nat.lt_or_ge d 3 with hd | hd
  · interval_cases d <;> simp <;> omega
  · obtain ⟨e, rfl⟩ : ∃ e, d = e + 3 := ⟨d - 3, by omega⟩
    have h1 : (-(-3 + ((e + 3 : ℕ) : Int))).toNat = 0 := by omega
    have h2 : ((-3) + ((e + 3 : ℕ) : Int)).toNat = e := by omega
    rw [h1, h2]
    have h3 : m * 1000 / 10 ^ (e + 3) = m / 10 ^ e := by
      rw [pow_add]
      have : (10 : ℕ) ^ 3 = 1000 := by norm_num
      rw [this, Nat.mul_div_mul_right _ _ (by norm_num : (0 : ℕ) < 1000)]
    rw [h3]
    push_cast
    ring_nf

/-- The natural floor of `(m : ℚ) / 10 ^ k` is natural division. -/
theorem floor_nat_div_pow (m k : ℕ) : ⌊(m : ℚ) / 10 ^ k⌋₊ = m / 10 ^ k := by
  have h : ((10 ^ k : ℕ) : ℚ) = 10 ^ k := by push_cast; ring_nf
  rw [← h, Nat.floor_div_eq_div]

/-- C3: for every string accepted by the (modelled) decimal library with
value `v`, `parseDuration` returns exactly
`(v div 10000 mod 100)` hours + `(v div 100 mod 100)` minutes +
`(v mod 100)` seconds + `(v·1000 mod 1000)` milliseconds (floors, i.e.
sub-millisecond precision truncated), the empty string yields zero duration
without error, and the worked examples hold:
`"0.1"` → 100 ms, `"9900"` → 99 min, `"10000"` → 1 h,
`"0102.003"` → 1 min 2 s 3 ms. -/
theorem parseDuration_spec :
    (∀ (s : String) (n : DecimalNum), decimalFromString s = some n →
      parseDuration s = .ok
        (goHour * ((⌊n.val / 10000⌋₊ % 100 : ℕ) : Int) +
          goMinute * ((⌊n.val / 100⌋₊ % 100 : ℕ) : Int) +
          goSecond * ((⌊n.val⌋₊ % 100 : ℕ) : Int) +
          goMillisecond * ((⌊n.val * 1000⌋₊ % 1000 : ℕ) : Int))) ∧
      parseDuration "" = .ok 0 ∧
      parseDuration "0.1" = .ok (100 * goMillisecond) ∧
      parseDuration "9900" = .ok (99 * goMinute) ∧
      parseDuration "10000" = .ok goHour ∧
      parseDuration "0102.003" = .ok (goMinute + 2 * goSecond + 3 * goMillisecond) := by
  refine ⟨?_, by decide, by decide, by decide, by decide, by decide⟩
  intro s n h
  obtain ⟨m, hm⟩ := decimalFromString_mantissa s n h
  obtain ⟨d, rfl⟩ : ∃ d, n = ⟨(m : Int), d⟩ := by
    exact ⟨n.fracDigits, by cases n; simp_all⟩
  have hs : s ≠ "" := by
    rintro rfl
    rw [show decimalFromString "" = none by decide] at h
    exact Option.noConfusion h
  have hval : DecimalNum.val ⟨(m : Int), d⟩ = (m : ℚ) / 10 ^ d := by
    unfold DecimalNum.val
    push_cast
    ring_nf
  have h4 : (⟨(m : Int), d⟩ : DecimalNum).scaledVal 4 = ((m / 10 ^ (d + 4) : ℕ) : Int) :=
    scaledVal_nonneg_scale m d 4
  have h2 : (⟨(m : Int), d⟩ : DecimalNum).scaledVal 2 = ((m / 10 ^ (d + 2) : ℕ) : Int) :=
    scaledVal_nonneg_scale m d 2
  have h0 : (⟨(m : Int), d⟩ : DecimalNum).scaledVal 0 = ((m / 10 ^ (d + 0) : ℕ) : Int) :=
    scaledVal_nonneg_scale m d 0
  have hm3 : (⟨(m : Int), d⟩ : DecimalNum).scaledVal (-3) = ((m * 1000 / 10 ^ d : ℕ) : Int) :=
    scaledVal_neg3 m d
  have f4 : ⌊DecimalNum.val ⟨(m : Int), d⟩ / 10000⌋₊ = m / 10 ^ (d + 4) := by
    rw [hval, div_div, show ((10 : ℚ) ^ d * 10000) = 10 ^ (d + 4) by ring,
      floor_nat_div_pow]
  have f2 : ⌊DecimalNum.val ⟨(m : Int), d⟩ / 100⌋₊ = m / 10 ^ (d + 2) := by
    rw [hval, div_div, show ((10 : ℚ) ^ d * 100) = 10 ^ (d + 2) by ring,
      floor_nat_div_pow]
  have f0 : ⌊DecimalNum.val ⟨(m : Int), d⟩⌋₊ = m / 10 ^ (d + 0) := by
    rw [hval, floor_nat_div_pow, Nat.add_zero]
  have f3 : ⌊DecimalNum.val ⟨(m : Int), d⟩ * 1000⌋₊ = m * 1000 / 10 ^ d := by
    rw [hval, div_mul_eq_mul_div, show ((m : ℚ) * 1000) = ((m * 1000 : ℕ) : ℚ) by push_cast; ring,
      floor_nat_div_pow]
  simp only [parseDuration, if_neg hs, h, h4, h2, h0, hm3, f4, f2, f0, f3]
  push_cast
  ring_nf

/-- Witness for C3: the universally quantified conjunct applied at the
literal `"5"` (value 5, i.e. 5 seconds). -/
theorem parseDuration_spec_witness :
    parseDuration "5" = .ok
      (goHour * ((⌊DecimalNum.val ⟨5, 0⟩ / 10000⌋₊ % 100 : ℕ) : Int) +
        goMinute * ((⌊DecimalNum.val ⟨5, 0⟩ / 100⌋₊ % 100 : ℕ) : Int) +
        goSecond * ((⌊DecimalNum.val ⟨5, 0⟩⌋₊ % 100 : ℕ) : Int) +
        goMillisecond * ((⌊DecimalNum.val ⟨5, 0⟩ * 1000⌋₊ % 1000 : ℕ) : Int)) :=
  parseDuration_spec.1 "5" ⟨5, 0⟩ (by decide)

/-! ### C1 and C4: behaviour of the temporal literal parser -/

/-- Decimal digit character for `n < 10`. -/
def dChar (n : Nat) : Char := Char.ofNat (48 + n)

/-- Zero-padded two-digit rendering. -/
def pad2 (n : Nat) : List Char := [dChar (n / 10), dChar (n % 10)]

/-- Zero-padded four-digit rendering. -/
def pad4 (n : Nat) : List Char :=
  [dChar (n / 1000), dChar (n / 100 % 10), dChar (n / 10 % 10), dChar (n % 10)]

/-- `±hhmm` zone literal; `zs` is the minus sign. -/
def zoneChars (zs : Bool) (zh zm : Nat) : List Char :=
  (if zs then '-' else '+') :: (pad2 zh ++ pad2 zm)

/-- Offset in minutes denoted by a `±hhmm` zone literal. -/
def zoneOff (zs : Bool) (zh zm : Nat) : Int :=
  if zs then -((zh * 60 + zm : Nat) : Int) else ((zh * 60 + zm : Nat) : Int)

theorem digitVal?_dChar (n : Nat) (h : n < 10) : digitVal? (dChar n) = some n := by
  interval_cases n <;> decide

theorem dChar_ne_slash (n : Nat) (h : n < 10) : ('/' : Char) ≠ dChar n := by
  interval_cases n <;> decide

theorem dChar_ne_T (n : Nat) (h : n < 10) : dChar n ≠ 'T' := by
  interval_cases n <;> decide

theorem num2_pad2 (n : Nat) (h : n < 100) :
    num2 (dChar (n / 10)) (dChar (n % 10)) = some n := by
  unfold num2
  rw [digitVal?_dChar _ (by omega), digitVal?_dChar _ (by omega)]
  exact congrArg some (by omega)

theorem num4_pad4 (n : Nat) (h : n < 10000) :
    num4 (dChar (n / 1000)) (dChar (n / 100 % 10)) (dChar (n / 10 % 10)) (dChar (n % 10)) =
      some n := by
  have e1 : num2 (dChar (n / 1000)) (dChar (n / 100 % 10)) = some (n / 100) := by
    have h1 : n / 1000 = n / 100 / 10 := by omega
    have h2 : n / 100 % 10 = n / 100 % 10 := rfl
    rw [h1]
    exact num2_pad2 (n / 100) (by omega)
  have e2 : num2 (dChar (n / 10 % 10)) (dChar (n % 10)) = some (n % 100) := by
    have h1 : n / 10 % 10 = n % 100 / 10 := by omega
    have h2 : n % 10 = n % 100 % 10 := by omega
    rw [h1, h2]
    exact num2_pad2 (n % 100) (by omega)
  unfold num4
  rw [e1, e2]
  exact congrArg some (by omega)

theorem parseZone_zoneChars (zs : Bool) (zh zm : Nat) (hh : zh < 100) (hm : zm < 100) :
    parseZone (if zs then '-' else '+') (dChar (zh / 10)) (dChar (zh % 10))
      (dChar (zm / 10)) (dChar (zm % 10)) = some (zoneOff zs zh zm) := by
  unfold parseZone
  rw [num2_pad2 zh hh, num2_pad2 zm hm]
  cases zs <;> simp [zoneOff]

theorem count_slash_pad2 (n : Nat) (h : n < 100) : (pad2 n).count '/' = 0 := by
  have a := dChar_ne_slash (n / 10) (by omega)
  have b := dChar_ne_slash (n % 10) (by omega)
  simp [pad2, List.count_cons, a, b]

theorem count_slash_pad4 (n : Nat) (h : n < 10000) : (pad4 n).count '/' = 0 := by
  have a := dChar_ne_slash (n / 1000) (by omega)
  have b := dChar_ne_slash (n / 100 % 10) (by omega)
  have c := dChar_ne_slash (n / 10 % 10) (by omega)
  have d := dChar_ne_slash (n % 10) (by omega)
  simp [pad4, List.count_cons, a, b, c, d]

theorem daysInMonth_le (y m : Nat) : daysInMonth y m ≤ 31 := by
  unfold daysInMonth
  split_ifs <;> omega

theorem validDate_bounds (y mo d : Nat) (hv : validDate y mo d = true) :
    1 ≤ mo ∧ mo ≤ 12 ∧ 1 ≤ d ∧ d ≤ 31 := by
  simp [validDate] at hv
  have := daysInMonth_le y mo
  omega

theorem validClock_bounds (h mi s : Nat) (hv : validClock h mi s = true) :
    h < 24 ∧ mi < 60 ∧ s < 60 := by
  simp [validClock] at hv
  omega

theorem xmlTime_complete8 (name : String) (y mo d : Nat) (hy : y < 10000)
    (hv : validDate y mo d = true) :
    xmlTimeElementUnmarshalAttr name (String.mk (pad4 y ++ pad2 mo ++ pad2 d)) =
      .ok ⟨y, mo, d, 0, 0, 0, 0⟩ := by
  obtain ⟨h1, h2, h3, h4⟩ := validDate_bounds y mo d hv
  have hlen : (String.mk (pad4 y ++ pad2 mo ++ pad2 d)).length = 8 := by
    simp [String.length, pad4, pad2]
  unfold xmlTimeElementUnmarshalAttr
  rw [hlen]
  norm_num
  simp only [pad4, pad2, List.cons_append, List.nil_append]
  simp only [parseLayoutDate8, num4_pad4 y hy, num2_pad2 mo (by omega),
    num2_pad2 d (by omega)]
  rw [if_pos hv]
  rfl

theorem xmlTime_complete9 (name : String) (h mi : Nat) (zs : Bool) (zh zm : Nat)
    (hv : validClock h mi 0 = true) (hzh : zh < 100) (hzm : zm < 100) :
    xmlTimeElementUnmarshalAttr name (String.mk (pad2 h ++ pad2 mi ++ zoneChars zs zh zm)) =
      .ok ⟨0, 1, 1, h, mi, 0, zoneOff zs zh zm⟩ := by
  obtain ⟨h1, h2, _⟩ := validClock_bounds h mi 0 hv
  have hlen : (String.mk (pad2 h ++ pad2 mi ++ zoneChars zs zh zm)).length = 9 := by
    simp [String.length, pad2, zoneChars]
  unfold xmlTimeElementUnmarshalAttr
  rw [hlen]
  norm_num
  simp only [pad2, zoneChars, List.cons_append, List.nil_append, List.append_assoc]
  simp only [parseLayoutTime9, num2_pad2 h (by omega), num2_pad2 mi (by omega),
    parseZone_zoneChars zs zh zm hzh hzm]
  rw [if_pos hv]
  rfl

theorem xmlTime_complete10slash (name : String) (y mo d : Nat) (hy : y < 10000)
    (hv : validDate y mo d = true) :
    xmlTimeElementUnmarshalAttr name
        (String.mk (pad2 d ++ ['/'] ++ pad2 mo ++ ['/'] ++ pad4 y)) =
      .ok ⟨y, mo, d, 0, 0, 0, 0⟩ := by
  obtain ⟨h1, h2, h3, h4⟩ := validDate_bounds y mo d hv
  have hlen :
      (String.mk (pad2 d ++ ['/'] ++ pad2 mo ++ ['/'] ++ pad4 y)).length = 10 := by
    simp [String.length, pad4, pad2]
  unfold xmlTimeElementUnmarshalAttr
  rw [hlen]
  norm_num
  rw [count_slash_pad2 d (by omega), count_slash_pad2 mo (by omega),
    count_slash_pad4 y hy]
  norm_num
  simp only [pad4, pad2, List.cons_append, List.nil_append, List.append_assoc]
  simp only [parseLayoutDateSlash10, num4_pad4 y hy, num2_pad2 mo (by omega),
    num2_pad2 d (by omega)]
  norm_num
  rw [if_pos hv]
  rfl

theorem xmlTime_complete10dash (name : String) (y mo d : Nat) (hy : y < 10000)
    (hv : validDate y mo d = true) :
    xmlTimeElementUnmarshalAttr name
        (String.mk (pad2 d ++ ['-'] ++ pad2 mo ++ ['-'] ++ pad4 y)) =
      .ok ⟨y, mo, d, 0, 0, 0, 0⟩ := by
  obtain ⟨h1, h2, h3, h4⟩ := validDate_bounds y mo d hv
  have hlen :
      (String.mk (pad2 d ++ ['-'] ++ pad2 mo ++ ['-'] ++ pad4 y)).length = 10 := by
    simp [String.length, pad4, pad2]
  have hdash : ('/' : Char) ≠ '-' := by decide
  unfold xmlTimeElementUnmarshalAttr
  rw [hlen]
  norm_num
  simp only [List.count_cons, List.count_append, List.count_nil,
    count_slash_pad2 d (by omega), count_slash_pad2 mo (by omega),
    count_slash_pad4 y hy, beq_iff_eq, hdash, if_false]
  norm_num
  simp only [pad4, pad2, List.cons_append, List.nil_append, List.append_assoc]
  simp only [parseLayoutDateDash10, num4_pad4 y hy, num2_pad2 mo (by omega),
    num2_pad2 d (by omega)]
  norm_num
  rw [if_pos hv]
  rfl

theorem xmlTime_complete11 (name : String) (h mi se : Nat) (zs : Bool) (zh zm : Nat)
    (hv : validClock h mi se = true) (hzh : zh < 100) (hzm : zm < 100) :
    xmlTimeElementUnmarshalAttr name
        (String.mk (pad2 h ++ pad2 mi ++ pad2 se ++ zoneChars zs zh zm)) =
      .ok ⟨0, 1, 1, h, mi, se, zoneOff zs zh zm⟩ := by
  obtain ⟨h1, h2, h3⟩ := validClock_bounds h mi se hv
  have hlen :
      (String.mk (pad2 h ++ pad2 mi ++ pad2 se ++ zoneChars zs zh zm)).length = 11 := by
    simp [String.length, pad2, zoneChars]
  unfold xmlTimeElementUnmarshalAttr
  rw [hlen]
  norm_num
  simp only [pad2, zoneChars, List.cons_append, List.nil_append, List.append_assoc]
  simp only [parseLayoutTime11, num2_pad2 h (by omega), num2_pad2 mi (by omega),
    num2_pad2 se (by omega), parseZone_zoneChars zs zh zm hzh hzm]
  rw [if_pos hv]
  rfl

theorem xmlTime_complete17 (name : String) (y mo d h mi : Nat) (zs : Bool) (zh zm : Nat)
    (hy : y < 10000) (hvd : validDate y mo d = true) (hvc : validClock h mi 0 = true)
    (hzh : zh < 100) (hzm : zm < 100) :
    xmlTimeElementUnmarshalAttr name
        (String.mk (pad4 y ++ pad2 mo ++ pad2 d ++ pad2 h ++ pad2 mi ++
          zoneChars zs zh zm)) =
      .ok ⟨y, mo, d, h, mi, 0, zoneOff zs zh zm⟩ := by
  obtain ⟨d1, d2, d3, d4⟩ := validDate_bounds y mo d hvd
  obtain ⟨c1, c2, _⟩ := validClock_bounds h mi 0 hvc
  have hlen : (String.mk (pad4 y ++ pad2 mo ++ pad2 d ++ pad2 h ++ pad2 mi ++
      zoneChars zs zh zm)).length = 17 := by
    simp [String.length, pad4, pad2, zoneChars]
  unfold xmlTimeElementUnmarshalAttr
  rw [hlen]
  norm_num
  simp only [pad4, pad2, zoneChars, List.cons_append, List.nil_append, List.append_assoc]
  simp only [parseLayoutFull17, num4_pad4 y hy, num2_pad2 mo (by omega),
    num2_pad2 d (by omega), num2_pad2 h (by omega), num2_pad2 mi (by omega),
    parseZone_zoneChars zs zh zm hzh hzm]
  simp [hvd, hvc, timeParseResult]

theorem xmlTime_complete18 (name : String) (y mo d h mi : Nat) (zs : Bool) (zh zm : Nat)
    (hy : y < 10000) (hvd : validDate y mo d = true) (hvc : validClock h mi 0 = true)
    (hzh : zh < 100) (hzm : zm < 100) :
    xmlTimeElementUnmarshalAttr name
        (String.mk (pad4 y ++ pad2 mo ++ pad2 d ++ ['T'] ++ pad2 h ++ pad2 mi ++
          zoneChars zs zh zm)) =
      .ok ⟨y, mo, d, h, mi, 0, zoneOff zs zh zm⟩ := by
  obtain ⟨d1, d2, d3, d4⟩ := validDate_bounds y mo d hvd
  obtain ⟨c1, c2, _⟩ := validClock_bounds h mi 0 hvc
  have hlen : (String.mk (pad4 y ++ pad2 mo ++ pad2 d ++ ['T'] ++ pad2 h ++ pad2 mi ++
      zoneChars zs zh zm)).length = 18 := by
    simp [String.length, pad4, pad2, zoneChars]
  unfold xmlTimeElementUnmarshalAttr
  rw [hlen]
  norm_num
  simp only [pad4, pad2, zoneChars, List.cons_append, List.nil_append, List.append_assoc]
  simp only [parseLayoutFull18, num4_pad4 y hy, num2_pad2 mo (by omega),
    num2_pad2 d (by omega), num2_pad2 h (by omega), num2_pad2 mi (by omega),
    parseZone_zoneChars zs zh zm hzh hzm]
  simp [hvd, hvc, timeParseResult]

theorem xmlTime_complete19 (name : String) (y mo d h mi se : Nat) (zs : Bool)
    (zh zm : Nat) (hy : y < 10000) (hvd : validDate y mo d = true)
    (hvc : validClock h mi se = true) (hzh : zh < 100) (hzm : zm < 100) :
    xmlTimeElementUnmarshalAttr name
        (String.mk (pad4 y ++ pad2 mo ++ pad2 d ++ pad2 h ++ pad2 mi ++ pad2 se ++
          zoneChars zs zh zm)) =
      .ok ⟨y, mo, d, h, mi, se, zoneOff zs zh zm⟩ := by
  obtain ⟨d1, d2, d3, d4⟩ := validDate_bounds y mo d hvd
  obtain ⟨c1, c2, c3⟩ := validClock_bounds h mi se hvc
  have hlen : (String.mk (pad4 y ++ pad2 mo ++ pad2 d ++ pad2 h ++ pad2 mi ++ pad2 se ++
      zoneChars zs zh zm)).length = 19 := by
    simp [String.length, pad4, pad2, zoneChars]
  unfold xmlTimeElementUnmarshalAttr
  rw [hlen]
  norm_num
  simp only [pad4, pad2, zoneChars, List.cons_append, List.nil_append, List.append_assoc]
  simp only [parseLayoutFull19, num4_pad4 y hy, num2_pad2 mo (by omega),
    num2_pad2 d (by omega), num2_pad2 h (by omega), num2_pad2 mi (by omega),
    num2_pad2 se (by omega), parseZone_zoneChars zs zh zm hzh hzm]
  simp [hvd, hvc, timeParseResult]

theorem xmlTime_complete20 (name : String) (y mo d h mi se : Nat) (zs : Bool)
    (zh zm : Nat) (hy : y < 10000) (hvd : validDate y mo d = true)
    (hvc : validClock h mi se = true) (hzh : zh < 100) (hzm : zm < 100) :
    xmlTimeElementUnmarshalAttr name
        (String.mk (pad4 y ++ pad2 mo ++ pad2 d ++ ['T'] ++ pad2 h ++ pad2 mi ++
          pad2 se ++ zoneChars zs zh zm)) =
      .ok ⟨y, mo, d, h, mi, se, zoneOff zs zh zm⟩ := by
  obtain ⟨d1, d2, d3, d4⟩ := validDate_bounds y mo d hvd
  obtain ⟨c1, c2, c3⟩ := validClock_bounds h mi se hvc
  have hlen : (String.mk (pad4 y ++ pad2 mo ++ pad2 d ++ ['T'] ++ pad2 h ++ pad2 mi ++
      pad2 se ++ zoneChars zs zh zm)).length = 20 := by
    simp [String.length, pad4, pad2, zoneChars]
  unfold xmlTimeElementUnmarshalAttr
  rw [hlen]
  norm_num
  simp only [pad4, pad2, zoneChars, List.cons_append, List.nil_append, List.append_assoc]
  simp only [parseLayoutFull20, num4_pad4 y hy, num2_pad2 mo (by omega),
    num2_pad2 d (by omega), num2_pad2 h (by omega), num2_pad2 mi (by omega),
    num2_pad2 se (by omega), parseZone_zoneChars zs zh zm hzh hzm]
  simp [hvd, hvc, timeParseResult]

/-- C4: for every validly-formatted literal of a supported length the parser
succeeds with the timestamp matching the literal's shape: lengths 8/10 give
a date with zero time-of-day (length 10 by `/`- or `-`-separated layout),
lengths 9/11 give a time-of-day with the year-0 sentinel, lengths 17–20 give
the full timestamp. -/
theorem xmlTime_valid_literals (name : String) :
    (∀ y mo d : Nat, y < 10000 → validDate y mo d = true →
      xmlTimeElementUnmarshalAttr name (String.mk (pad4 y ++ pad2 mo ++ pad2 d)) =
        .ok ⟨y, mo, d, 0, 0, 0, 0⟩) ∧
    (∀ (h mi : Nat) (zs : Bool) (zh zm : Nat), validClock h mi 0 = true →
      zh < 100 → zm < 100 →
      xmlTimeElementUnmarshalAttr name
          (String.mk (pad2 h ++ pad2 mi ++ zoneChars zs zh zm)) =
        .ok ⟨0, 1, 1, h, mi, 0, zoneOff zs zh zm⟩) ∧
    (∀ y mo d : Nat, y < 10000 → validDate y mo d = true →
      xmlTimeElementUnmarshalAttr name
          (String.mk (pad2 d ++ ['/'] ++ pad2 mo ++ ['/'] ++ pad4 y)) =
        .ok ⟨y, mo, d, 0, 0, 0, 0⟩) ∧
    (∀ y mo d : Nat, y < 10000 → validDate y mo d = true →
      xmlTimeElementUnmarshalAttr name
          (String.mk (pad2 d ++ ['-'] ++ pad2 mo ++ ['-'] ++ pad4 y)) =
        .ok ⟨y, mo, d, 0, 0, 0, 0⟩) ∧
    (∀ (h mi se : Nat) (zs : Bool) (zh zm : Nat), validClock h mi se = true →
      zh < 100 → zm < 100 →
      xmlTimeElementUnmarshalAttr name
          (String.mk (pad2 h ++ pad2 mi ++ pad2 se ++ zoneChars zs zh zm)) =
        .ok ⟨0, 1, 1, h, mi, se, zoneOff zs zh zm⟩) ∧
    (∀ (y mo d h mi : Nat) (zs : Bool) (zh zm : Nat), y < 10000 →
      validDate y mo d = true → validClock h mi 0 = true → zh < 100 → zm < 100 →
      xmlTimeElementUnmarshalAttr name
          (String.mk (pad4 y ++ pad2 mo ++ pad2 d ++ pad2 h ++ pad2 mi ++
            zoneChars zs zh zm)) =
        .ok ⟨y, mo, d, h, mi, 0, zoneOff zs zh zm⟩) ∧
    (∀ (y mo d h mi : Nat) (zs : Bool) (zh zm : Nat), y < 10000 →
      validDate y mo d = true → validClock h mi 0 = true → zh < 100 → zm < 100 →
      xmlTimeElementUnmarshalAttr name
          (String.mk (pad4 y ++ pad2 mo ++ pad2 d ++ ['T'] ++ pad2 h ++ pad2 mi ++
            zoneChars zs zh zm)) =
        .ok ⟨y, mo, d, h, mi, 0, zoneOff zs zh zm⟩) ∧
    (∀ (y mo d h mi se : Nat) (zs : Bool) (zh zm : Nat), y < 10000 →
      validDate y mo d = true → validClock h mi se = true → zh < 100 → zm < 100 →
      xmlTimeElementUnmarshalAttr name
          (String.mk (pad4 y ++ pad2 mo ++ pad2 d ++ pad2 h ++ pad2 mi ++ pad2 se ++
            zoneChars zs zh zm)) =
        .ok ⟨y, mo, d, h, mi, se, zoneOff zs zh zm⟩) ∧
    (∀ (y mo d h mi se : Nat) (zs : Bool) (zh zm : Nat), y < 10000 →
      validDate y mo d = true → validClock h mi se = true → zh < 100 → zm < 100 →
      xmlTimeElementUnmarshalAttr name
          (String.mk (pad4 y ++ pad2 mo ++ pad2 d ++ ['T'] ++ pad2 h ++ pad2 mi ++
            pad2 se ++ zoneChars zs zh zm)) =
        .ok ⟨y, mo, d, h, mi, se, zoneOff zs zh zm⟩) := by
  refine ⟨fun y mo d hy hv => xmlTime_complete8 name y mo d hy hv,
    fun h mi zs zh zm hv hzh hzm => xmlTime_complete9 name h mi zs zh zm hv hzh hzm,
    fun y mo d hy hv => xmlTime_complete10slash name y mo d hy hv,
    fun y mo d hy hv => xmlTime_complete10dash name y mo d hy hv,
    fun h mi se zs zh zm hv hzh hzm =>
      xmlTime_complete11 name h mi se zs zh zm hv hzh hzm,
    fun y mo d h mi zs zh zm hy hvd hvc hzh hzm =>
      xmlTime_complete17 name y mo d h mi zs zh zm hy hvd hvc hzh hzm,
    fun y mo d h mi zs zh zm hy hvd hvc hzh hzm =>
      xmlTime_complete18 name y mo d h mi zs zh zm hy hvd hvc hzh hzm,
    fun y mo d h mi se zs zh zm hy hvd hvc hzh hzm =>
      xmlTime_complete19 name y mo d h mi se zs zh zm hy hvd hvc hzh hzm,
    fun y mo d h mi se zs zh zm hy hvd hvc hzh hzm =>
      xmlTime_complete20 name y mo d h mi se zs zh zm hy hvd hvc hzh hzm⟩

/-- Witness for C4: one concrete literal per supported length
(2019-01-15, 15:05(:30), zone +0100). -/
theorem xmlTime_valid_literals_witness :
    xmlTimeElementUnmarshalAttr "date" (String.mk (pad4 2019 ++ pad2 1 ++ pad2 15)) =
        .ok ⟨2019, 1, 15, 0, 0, 0, 0⟩ ∧
      xmlTimeElementUnmarshalAttr "date"
          (String.mk (pad2 15 ++ pad2 5 ++ zoneChars false 1 0)) =
        .ok ⟨0, 1, 1, 15, 5, 0, zoneOff false 1 0⟩ ∧
      xmlTimeElementUnmarshalAttr "date"
          (String.mk (pad2 15 ++ ['/'] ++ pad2 1 ++ ['/'] ++ pad4 2019)) =
        .ok ⟨2019, 1, 15, 0, 0, 0, 0⟩ ∧
      xmlTimeElementUnmarshalAttr "date"
          (String.mk (pad2 15 ++ ['-'] ++ pad2 1 ++ ['-'] ++ pad4 2019)) =
        .ok ⟨2019, 1, 15, 0, 0, 0, 0⟩ ∧
      xmlTimeElementUnmarshalAttr "date"
          (String.mk (pad2 15 ++ pad2 5 ++ pad2 30 ++ zoneChars false 1 0)) =
        .ok ⟨0, 1, 1, 15, 5, 30, zoneOff false 1 0⟩ ∧
      xmlTimeElementUnmarshalAttr "date"
          (String.mk (pad4 2019 ++ pad2 1 ++ pad2 15 ++ pad2 15 ++ pad2 5 ++
            zoneChars false 1 0)) =
        .ok ⟨2019, 1, 15, 15, 5, 0, zoneOff false 1 0⟩ ∧
      xmlTimeElementUnmarshalAttr "date"
          (String.mk (pad4 2019 ++ pad2 1 ++ pad2 15 ++ ['T'] ++ pad2 15 ++ pad2 5 ++
            zoneChars false 1 0)) =
        .ok ⟨2019, 1, 15, 15, 5, 0, zoneOff false 1 0⟩ ∧
      xmlTimeElementUnmarshalAttr "date"
          (String.mk (pad4 2019 ++ pad2 1 ++ pad2 15 ++ pad2 15 ++ pad2 5 ++ pad2 30 ++
            zoneChars false 1 0)) =
        .ok ⟨2019, 1, 15, 15, 5, 30, zoneOff false 1 0⟩ ∧
      xmlTimeElementUnmarshalAttr "date"
          (String.mk (pad4 2019 ++ pad2 1 ++ pad2 15 ++ ['T'] ++ pad2 15 ++ pad2 5 ++
            pad2 30 ++ zoneChars false 1 0)) =
        .ok ⟨2019, 1, 15, 15, 5, 30, zoneOff false 1 0⟩ :=
  ⟨(xmlTime_valid_literals "date").1 2019 1 15 (by decide) (by decide),
    (xmlTime_valid_literals "date").2.1 15 5 false 1 0 (by decide) (by decide) (by decide),
    (xmlTime_valid_literals "date").2.2.1 2019 1 15 (by decide) (by decide),
    (xmlTime_valid_literals "date").2.2.2.1 2019 1 15 (by decide) (by decide),
    (xmlTime_valid_literals "date").2.2.2.2.1 15 5 30 false 1 0 (by decide) (by decide)
      (by decide),
    (xmlTime_valid_literals "date").2.2.2.2.2.1 2019 1 15 15 5 false 1 0 (by decide)
      (by decide) (by decide) (by decide) (by decide),
    (xmlTime_valid_literals "date").2.2.2.2.2.2.1 2019 1 15 15 5 false 1 0 (by decide)
      (by decide) (by decide) (by decide) (by decide),
    (xmlTime_valid_literals "date").2.2.2.2.2.2.2.1 2019 1 15 15 5 30 false 1 0
      (by decide) (by decide) (by decide) (by decide) (by decide),
    (xmlTime_valid_literals "date").2.2.2.2.2.2.2.2 2019 1 15 15 5 30 false 1 0
      (by decide) (by decide) (by decide) (by decide) (by decide)⟩

/-- C1 (amended): a literal whose length is outside
{8, 9, 10, 11, 17, 18, 19, 20} does not make the parser fail — the `switch`
has no default case, so `err` stays `nil` and the attribute silently decodes
to the zero `time.Time`. -/
theorem xmlTime_unsupported_length_silent (name value : String)
    (h : value.length ∉ ([8, 9, 10, 11, 17, 18, 19, 20] : List Nat)) :
    xmlTimeElementUnmarshalAttr name value = .ok goZeroTime := by
  simp only [List.mem_cons, List.not_mem_nil, or_false, not_or] at h
  obtain ⟨h8, h9, h10, h11, h17, h18, h19, h20⟩ := h
  unfold xmlTimeElementUnmarshalAttr
  rw [if_neg h8, if_neg h9, if_neg h10, if_neg h11, if_neg h17, if_neg h18,
    if_neg h19, if_neg h20]

/-- Witness for C1's amended statement at the length-5 literal `"abcde"`. -/
theorem xmlTime_unsupported_length_silent_witness :
    xmlTimeElementUnmarshalAttr "time" "abcde" = .ok goZeroTime :=
  xmlTime_unsupported_length_silent "time" "abcde" (by decide)

/-- Counterexample to C1 as stated: the length-5 literal `"12345"` is outside
the supported set, yet the parser succeeds and silently yields the zero
timestamp instead of failing with a format error. -/
theorem xmlTime_unsupported_length_counterexample :
    ("12345" : String).length = 5 ∧
      xmlTimeElementUnmarshalAttr "date" "12345" = .ok goZeroTime := by
  constructor
  · rfl
  · decide

/-! ### C5: the partial date merger -/

/-- C5: for every time-only timestamp `t` (year-0 sentinel) and date-only
timestamp `d`, `addDate t d` carries `d`'s calendar fields, `t`'s clock
fields, and `t`'s zone offset. -/
theorem addDate_merges_date_and_time (t d : GoTime)
    (ht : t.Valid) (hd : d.Valid)
    (htime : t.year = 0) (hdate : d.hour = 0 ∧ d.minute = 0 ∧ d.second = 0) :
    (addDate t d).year = d.year ∧ (addDate t d).month = d.month ∧
      (addDate t d).day = d.day ∧ (addDate t d).hour = t.hour ∧
      (addDate t d).minute = t.minute ∧ (addDate t d).second = t.second ∧
      (addDate t d).offset = t.offset := by
  refine ⟨rfl, rfl, rfl, rfl, rfl, rfl, rfl⟩

/-- Witness for C5 at the worked example from the design: 15:05:30 (offset
+60 min) merged with 2019-01-15. -/
theorem addDate_merges_date_and_time_witness :
    (addDate ⟨0, 1, 1, 15, 5, 30, 60⟩ ⟨2019, 1, 15, 0, 0, 0, 0⟩).year = 2019 ∧
      (addDate ⟨0, 1, 1, 15, 5, 30, 60⟩ ⟨2019, 1, 15, 0, 0, 0, 0⟩).month = 1 ∧
      (addDate ⟨0, 1, 1, 15, 5, 30, 60⟩ ⟨2019, 1, 15, 0, 0, 0, 0⟩).day = 15 ∧
      (addDate ⟨0, 1, 1, 15, 5, 30, 60⟩ ⟨2019, 1, 15, 0, 0, 0, 0⟩).hour = 15 ∧
      (addDate ⟨0, 1, 1, 15, 5, 30, 60⟩ ⟨2019, 1, 15, 0, 0, 0, 0⟩).minute = 5 ∧
      (addDate ⟨0, 1, 1, 15, 5, 30, 60⟩ ⟨2019, 1, 15, 0, 0, 0, 0⟩).second = 30 ∧
      (addDate ⟨0, 1, 1, 15, 5, 30, 60⟩ ⟨2019, 1, 15, 0, 0, 0, 0⟩).offset = 60 :=
  addDate_merges_date_and_time ⟨0, 1, 1, 15, 5, 30, 60⟩ ⟨2019, 1, 15, 0, 0, 0, 0⟩
    (by decide) (by decide) (by decide) (by decide)

/-! ### C7: the boolean token decoder -/

/-- C7: the Yes/No decoder returns `true` exactly on `"yes"`/`"Yes"`, `false`
exactly on `"no"`/`"No"`, and on every other token fails with the error
naming the attribute and the offending value. -/
theorem xmlYesNo_characterisation (name value : String) :
    (xmlYesNoUnmarshalAttr name value = .ok true ↔ value = "yes" ∨ value = "Yes") ∧
      (xmlYesNoUnmarshalAttr name value = .ok false ↔ value = "no" ∨ value = "No") ∧
      (value ≠ "yes" → value ≠ "Yes" → value ≠ "no" → value ≠ "No" →
        xmlYesNoUnmarshalAttr name value =
          .error s!"parsing {name} attribute as Yes/No field, unexpected value: {value}") := by
  unfold xmlYesNoUnmarshalAttr
  split_ifs with h1 h2
  · simp only [Bool.or_eq_true, decide_eq_true_eq] at h1
    refine ⟨⟨fun _ => h1, fun _ => rfl⟩, ?_, ?_⟩
    · constructor
      · intro h
        simp at h
      · intro h
        exfalso
        rcases h1 with rfl | rfl <;> rcases h with h | h <;> exact absurd h (by decide)
    · intro hy hY _ _
      exfalso
      rcases h1 with rfl | rfl
      · exact absurd rfl hy
      · exact absurd rfl hY
  · simp only [Bool.or_eq_true, decide_eq_true_eq] at h1 h2
    refine ⟨?_, ⟨fun _ => h2, fun _ => rfl⟩, ?_⟩
    · constructor
      · intro h
        simp at h
      · intro h
        exact absurd h h1
    · intro _ _ hn hN
      exfalso
      rcases h2 with rfl | rfl
      · exact absurd rfl hn
      · exact absurd rfl hN
  · simp only [Bool.or_eq_true, decide_eq_true_eq] at h1 h2
    push_neg at h1 h2
    refine ⟨?_, ?_, fun _ _ _ _ => rfl⟩
    · constructor
      · intro h
        simp at h
      · intro h
        exfalso
        rcases h with rfl | rfl
        · exact absurd rfl h1.1
        · exact absurd rfl h1.2
    · constructor
      · intro h
        simp at h
      · intro h
        exfalso
        rcases h with rfl | rfl
        · exact absurd rfl h2.1
        · exact absurd rfl h2.2

/-- Witness for C7: the third conjunct applied at the token `"maybe"`. -/
theorem xmlYesNo_characterisation_witness :
    xmlYesNoUnmarshalAttr "handicap" "maybe" =
      .error "parsing handicap attribute as Yes/No field, unexpected value: maybe" := by
  have h := (xmlYesNo_characterisation "handicap" "maybe").2.2
    (by decide) (by decide) (by decide) (by decide)
  simpa using h

/-! ### C10: zero/absent price denominators -/

/-- C10: when the denominator attribute is zero (or absent, which leaves the
zero value), price decoding succeeds, the fractional value is the zero
rational, and the numerator is ignored. -/
theorem xmlPrice_zero_denominator (dec : DecimalNum) (numerator : Int) :
    (xmlPriceUnmarshal dec numerator 0).fractional = 0 ∧
      (∀ numerator' : Int,
        xmlPriceUnmarshal dec numerator 0 = xmlPriceUnmarshal dec numerator' 0) ∧
      (∀ num den : Int, den ≠ 0 →
        (xmlPriceUnmarshal dec num den).fractional = (num : ℚ) / (den : ℚ)) := by
  refine ⟨?_, ?_, ?_⟩
  · simp [xmlPriceUnmarshal]
  · intro numerator'
    simp [xmlPriceUnmarshal]
  · intro num den hden
    simp [xmlPriceUnmarshal, hden]

/-- Witness for C10 at a concrete price: denominator 0 gives the zero
fraction, denominator 1 with numerator 14 gives 14. -/
theorem xmlPrice_zero_denominator_witness :
    (xmlPriceUnmarshal ⟨0, 0⟩ 14 0).fractional = 0 ∧
      (xmlPriceUnmarshal ⟨0, 0⟩ 14 1).fractional = (14 : ℚ) / (1 : ℚ) :=
  ⟨(xmlPrice_zero_denominator ⟨0, 0⟩ 14).1,
    (xmlPrice_zero_denominator ⟨0, 0⟩ 14).2.2 14 1 (by decide)⟩

/-! ### Greyhound racing domain (`greyhounds/racing.go`)

Struct decoding (`encoding/xml` `DecodeElement`) is modelled per entity as a
function from a raw record: attributes with custom unmarshalers, enum
defaults, or string payloads appear as their raw `Option String`/`String`
attribute values; child elements whose own decoding no claim concerns
(comments, traps, non-runners, dividends, dogs) appear as already-decoded
values.  Numeric attributes appear as their decoded integers. -/
namespace Greyhounds

/-- `MessageType` — a string type with a closed value set. -/
abbrev MessageType := String

/-- `MessageType.isValid`. -/
def MessageType.isValid (s : MessageType) : Bool :=
  s = "Card" || s = "Race"

/-- `MeetingState.isValid`. -/
def MeetingState.isValid (s : String) : Bool :=
  s = "Dormant" || s = "Active" || s = "Delayed" || s = "Finished" || s = "Abandoned"

/-- `RaceType.isValid`. -/
def RaceType.isValid (s : String) : Bool :=
  s = "Flat" || s = "Hurdles"

/-- `RaceState.isValid` — the 22 allowed race states. -/
def RaceState.isValid (s : String) : Bool :=
  s = "Dormant" || s = "Delayed" || s = "Parading" || s = "Approaching" ||
    s = "Going in traps" || s = "Hare Running" || s = "Off" || s = "Blanket Finish" ||
    s = "Result" || s = "Final Result" || s = "Race Void" || s = "No Race" ||
    s = "Rerun" || s = "Stewards Inquiry" || s = "Stopped for Safety" ||
    s = "Abandoned" || s = "Meeting Abandoned" || s = "Finished" ||
    s = "Photo Second" || s = "Photo Third" || s = "Trap Failure" || s = "Hare Failure"

/-- `Comment`. -/
structure Comment where
  source : String
  ctype : String
  text : String
  deriving Repr, DecidableEq

/-- `Dog`: carried through race/meeting assembly unchanged; no claim
inspects dog contents, so only the identity fields are modelled. -/
structure Dog where
  id : Int
  name : String
  deriving Repr, DecidableEq

/-- `Show`. -/
structure Show where
  timeStamp : GoTime
  marketNumber : Int
  noOffers : Bool
  price : Option Price
  deriving Repr, DecidableEq

/-- `Result` of a trap (durations in nanoseconds; the float64 `Weight`
field is not modelled — no claim inspects it). -/
structure GResult where
  position : String
  btnDistance : String
  sectionalTime : Int
  bendPosition : String
  runComment : String
  runTime : Int
  adjustedTime : Int
  startingPrice : Option Price
  deriving Repr, DecidableEq

/-- `Trap`. -/
structure Trap where
  trapNo : Int
  vacant : Bool
  wide : Bool
  seeding : String
  handicap : String
  reserve : Bool
  photo : Int
  dog : Option Dog
  shows : List Show
  result : Option GResult
  deriving Repr, DecidableEq

/-- `NonRunner`. -/
structure NonRunner where
  trap : Int
  reason : String
  dog : Option Dog
  deriving Repr, DecidableEq

/-- `Forecast`. -/
structure Forecast where
  trap1 : Int
  trap2 : Int
  dividend : DecimalNum
  deriving Repr, DecidableEq

/-- `Tricast`. -/
structure Tricast where
  trap1 : Int
  trap2 : Int
  trap3 : Int
  dividend : DecimalNum
  deriving Repr, DecidableEq

/-- `Dividends`. -/
structure Dividends where
  forecast : List Forecast
  tricast : List Tricast
  deriving Repr, DecidableEq

/-- `Race` (`class` is a Lean keyword, rendered `raceClass`). -/
structure Race where
  revision : Int
  raceNumber : Int
  time : GoTime
  rtype : String
  handicap : Bool
  raceClass : String
  distance : Int
  title : String
  prizes : String
  offTime : GoTime
  going : String
  winTime : Int
  state : String
  bags : Bool
  tricast : Bool
  comments : List Comment
  traps : List Trap
  nonRunners : List NonRunner
  dividends : Option Dividends
  deriving Repr, DecidableEq

/-- `Meeting`. -/
structure Meeting where
  meetingID : Int
  track : String
  country : String
  date : GoTime
  state : String
  races : List Race
  reserveDogs : List Dog
  deriving Repr, DecidableEq

/-- `DogRacing`. -/
structure DogRacing where
  rtype : MessageType
  state : String
  meetings : List Meeting
  deriving Repr, DecidableEq

/-- Raw attribute/child data seen by `xmlRace.UnmarshalXML`. -/
structure RawRace where
  revision : Int
  raceNumber : Int
  time : Option String
  rtype : Option String
  handicap : Option String
  raceClass : String
  distance : Int
  title : String
  prizes : String
  offTime : Option String
  going : String
  winTime : String
  state : Option String
  bags : Option String
  tricast : Option String
  comments : List Comment
  traps : List Trap
  nonRunners : List NonRunner
  dividends : Option Dividends

/-- The `fmt.Errorf("invalid %s attibute value: %s", ...)` messages of the
enum validations (the "attibute" typo is the source's). -/
def invalidEnum (field value : String) : String :=
  s!"invalid {field} attibute value: {value}"

/-- `xmlRace.UnmarshalXML` from `greyhounds/racing.go`: the raw struct is
pre-initialised with `State: RaceDormant`; `DecodeElement` runs the
attribute unmarshalers (time, offTime, the Yes/No booleans); then the race
type and state are validated against their closed sets; then `winTime` goes
through `parseDuration`; then the `Race` is assembled. -/
def xmlRaceUnmarshal (raw : RawRace) : Except String Race :=
  match optTimeAttr "time" raw.time with
  | .error e => .error e
  | .ok time =>
  match optTimeAttr "offTime" raw.offTime with
  | .error e => .error e
  | .ok offTime =>
  match optYesNo "handicap" raw.handicap with
  | .error e => .error e
  | .ok handicap =>
  match optYesNo "Bags" raw.bags with
  | .error e => .error e
  | .ok bags =>
  match optYesNo "tricast" raw.tricast with
  | .error e => .error e
  | .ok tricast =>
  if !(RaceType.isValid (raw.rtype.getD "")) then
    .error (invalidEnum "Race type" (raw.rtype.getD ""))
  else if !(RaceState.isValid (raw.state.getD "Dormant")) then
    .error (invalidEnum "Race state" (raw.state.getD "Dormant"))
  else
    match parseDuration raw.winTime with
    | .error e => .error e
    | .ok winTime =>
        .ok { revision := raw.revision, raceNumber := raw.raceNumber, time := time,
              rtype := raw.rtype.getD "", handicap := handicap,
              raceClass := raw.raceClass, distance := raw.distance,
              title := raw.title, prizes := raw.prizes,
              offTime := offTime, going := raw.going, winTime := winTime,
              state := raw.state.getD "Dormant", bags := bags, tricast := tricast,
              comments := raw.comments, traps := raw.traps,
              nonRunners := raw.nonRunners, dividends := raw.dividends }

/-- Show-timestamp merging inside `xmlMeeting.UnmarshalXML`'s loop: a show
with the year-0 sentinel gets the meeting date. -/
def mergeShow (date : GoTime) (s : Show) : Show :=
  if s.timeStamp.year = 0 then { s with timeStamp := addDate s.timeStamp date } else s

/-- Per-trap show merging. -/
def mergeTrap (date : GoTime) (t : Trap) : Trap :=
  { t with shows := t.shows.map (mergeShow date) }

/-- Race merging inside `xmlMeeting.UnmarshalXML`: `Time` and `OffTime` get
the meeting date when they carry the year-0 sentinel, and every show
timestamp likewise. -/
def mergeRace (date : GoTime) (r : Race) : Race :=
  let r1 := if r.time.year = 0 then { r with time := addDate r.time date } else r
  let r2 := if r1.offTime.year = 0 then { r1 with offTime := addDate r1.offTime date } else r1
  { r2 with traps := r2.traps.map (mergeTrap date) }

/-- `DecodeElement`'s sequential child decoding: first failure aborts. -/
def exceptMapM (f : α → Except String β) : List α → Except String (List β)
  | [] => .ok []
  | x :: xs =>
      match f x with
      | .error e => .error e
      | .ok y =>
          match exceptMapM f xs with
          | .error e => .error e
          | .ok ys => .ok (y :: ys)

/-- Raw attribute/child data seen by `xmlMeeting.UnmarshalXML`; child races
are raw (their decoding happens inside `DecodeElement`). -/
structure RawMeeting where
  meetingID : Int
  track : String
  country : String
  date : Option String
  state : Option String
  races : List RawRace
  reserveDogs : List Dog

/-- `xmlMeeting.UnmarshalXML` from `greyhounds/racing.go`: the raw struct is
pre-initialised with `State: MeetingDormant`; `DecodeElement` decodes the
date attribute and the child races; the meeting state is validated; races
with sentinel times are merged with the meeting date; then the `Meeting` is
assembled. -/
def xmlMeetingUnmarshal (raw : RawMeeting) : Except String Meeting :=
  match optTimeAttr "date" raw.date with
  | .error e => .error e
  | .ok date =>
  match exceptMapM xmlRaceUnmarshal raw.races with
  | .error e => .error e
  | .ok races =>
    if !(MeetingState.isValid (raw.state.getD "Dormant")) then
      .error (invalidEnum "Meeting state" (raw.state.getD "Dormant"))
    else
      .ok { meetingID := raw.meetingID, track := raw.track, country := raw.country,
            date := date, state := raw.state.getD "Dormant",
            races := races.map (mergeRace date), reserveDogs := raw.reserveDogs }

/-- Raw data seen by `DogRacing.UnmarshalXML`. -/
structure RawDogRacing where
  rtype : Option String
  state : String
  meetings : List RawMeeting

/-- `DogRacing.UnmarshalXML` from `greyhounds/racing.go`: `DecodeElement`
decodes the child meetings, then the message type is validated. -/
def dogRacingUnmarshal (raw : RawDogRacing) : Except String DogRacing :=
  match exceptMapM xmlMeetingUnmarshal raw.meetings with
  | .error e => .error e
  | .ok meetings =>
    if !(MessageType.isValid (raw.rtype.getD "")) then
      .error (invalidEnum "Message type" (raw.rtype.getD ""))
    else
      .ok { rtype := raw.rtype.getD "", state := raw.state, meetings := meetings }

end Greyhounds

namespace Greyhounds

theorem exceptMapM_ok_mem {α β : Type} {f : α → Except String β} {l : List α}
    {ys : List β} (h : exceptMapM f l = .ok ys) :
    ∀ y ∈ ys, ∃ x ∈ l, f x = .ok y := by
  induction l generalizing ys with
  | nil =>
    unfold exceptMapM at h
    cases Except.ok.inj h
    intro y hy
    exact absurd hy (List.not_mem_nil y)
  | cons x xs ih =>
    unfold exceptMapM at h
    split at h
    · exact Except.noConfusion h
    · rename_i y0 hy0
      split at h
      · exact Except.noConfusion h
      · rename_i ys0 hys0
        cases Except.ok.inj h
        intro y hy
        rcases List.mem_cons.1 hy with rfl | hmem
        · exact ⟨x, List.mem_cons_self x xs, hy0⟩
        · obtain ⟨x', hx', hfx'⟩ := ih hys0 y hmem
          exact ⟨x', List.mem_cons_of_mem x hx', hfx'⟩

theorem mergeRace_state (date : GoTime) (r : Race) :
    (mergeRace date r).state = r.state := by
  simp only [mergeRace]
  split_ifs <;> rfl

theorem mergeRace_rtype (date : GoTime) (r : Race) :
    (mergeRace date r).rtype = r.rtype := by
  simp only [mergeRace]
  split_ifs <;> rfl

/-- What a successful `xmlRace.UnmarshalXML` guarantees: the decoded state
and type are the raw attribute values (state defaulting to `Dormant`), and
both passed their closed-set validation. -/
theorem xmlRaceUnmarshal_ok (raw : RawRace) (r : Race)
    (h : xmlRaceUnmarshal raw = .ok r) :
    r.state = raw.state.getD "Dormant" ∧ r.rtype = raw.rtype.getD "" ∧
      RaceState.isValid r.state = true ∧ RaceType.isValid r.rtype = true := by
  unfold xmlRaceUnmarshal at h
  split at h
  · exact Except.noConfusion h
  split at h
  · exact Except.noConfusion h
  split at h
  · exact Except.noConfusion h
  split at h
  · exact Except.noConfusion h
  split at h
  · exact Except.noConfusion h
  split at h
  · exact Except.noConfusion h
  split at h
  · exact Except.noConfusion h
  rename_i htype hstate
  split at h
  · exact Except.noConfusion h
  have htype' : RaceType.isValid (raw.rtype.getD "") = true := by
    revert htype
    cases RaceType.isValid (raw.rtype.getD "") <;> simp
  have hstate' : RaceState.isValid (raw.state.getD "Dormant") = true := by
    revert hstate
    cases RaceState.isValid (raw.state.getD "Dormant") <;> simp
  cases Except.ok.inj h
  exact ⟨rfl, rfl, hstate', htype'⟩

/-- What a successful `xmlMeeting.UnmarshalXML` guarantees: the decoded state
is the raw attribute value defaulting to `Dormant`, it passed validation,
and every contained race passed race-level validation. -/
theorem xmlMeetingUnmarshal_ok (raw : RawMeeting) (m : Meeting)
    (h : xmlMeetingUnmarshal raw = .ok m) :
    m.state = raw.state.getD "Dormant" ∧ MeetingState.isValid m.state = true ∧
      ∀ race ∈ m.races, RaceState.isValid race.state = true ∧
        RaceType.isValid race.rtype = true := by
  unfold xmlMeetingUnmarshal at h
  split at h
  · exact Except.noConfusion h
  rename_i date hdate
  split at h
  · exact Except.noConfusion h
  rename_i races hraces
  split at h
  · exact Except.noConfusion h
  rename_i hstate
  have hstate' : MeetingState.isValid (raw.state.getD "Dormant") = true := by
    revert hstate
    cases MeetingState.isValid (raw.state.getD "Dormant") <;> simp
  cases Except.ok.inj h
  refine ⟨rfl, hstate', ?_⟩
  intro race hrace
  obtain ⟨r0, hr0, rfl⟩ := List.mem_map.1 hrace
  obtain ⟨rr, _, hok⟩ := exceptMapM_ok_mem hraces r0 hr0
  have hr := xmlRaceUnmarshal_ok rr r0 hok
  rw [mergeRace_state, mergeRace_rtype]
  exact ⟨hr.2.2.1, hr.2.2.2⟩

/-- What a successful `DogRacing.UnmarshalXML` guarantees: the message type
passed its closed-set validation and is the raw value defaulting to `""`. -/
theorem dogRacingUnmarshal_ok (raw : RawDogRacing) (doc : DogRacing)
    (h : dogRacingUnmarshal raw = .ok doc) :
    doc.rtype = raw.rtype.getD "" ∧ MessageType.isValid doc.rtype = true := by
  unfold dogRacingUnmarshal at h
  split at h
  · exact Except.noConfusion h
  split at h
  · exact Except.noConfusion h
  rename_i htype
  have htype' : MessageType.isValid (raw.rtype.getD "") = true := by
    revert htype
    cases MessageType.isValid (raw.rtype.getD "") <;> simp
  cases Except.ok.inj h
  exact ⟨rfl, htype'⟩

end Greyhounds

/-! ### Horse racing-card domain (`RacingCard` decoder, `src/unnamed/part_001`)

Auxiliary types defined in horses source files that are not under `src/`
(`xmlDate`, `UnitsValue`, `UnitsValueText`, `MoneyValue`) are modelled from
the spec and the field documentation; no claim inspects their contents. -/
namespace Horses

/-- Modelled from the spec: `UnitsValue` (its defining file is not under
`src/`) — a value with the units it is specified in; the tests read its
`Units` field.  Opaque to every claim. -/
structure UnitsValue where
  units : String
  deriving Repr, DecidableEq

/-- Modelled from the spec: `UnitsValueText`, like `UnitsValue` with a text
rendering; opaque to every claim. -/
structure UnitsValueText where
  units : String
  deriving Repr, DecidableEq

/-- Modelled from the spec: `MoneyValue` (monetary amount); opaque to every
claim. -/
structure MoneyValue where
  amount : Int
  deriving Repr, DecidableEq

/-- `CardTrainer`. -/
structure CardTrainer where
  id : Int
  name : String
  nationality : String
  location : String
  deriving Repr, DecidableEq

/-- `CardJockey` (its `Allowance` uses the out-of-`src/` `UnitsValue`). -/
structure CardJockey where
  id : Int
  name : String
  allowance : UnitsValue
  deriving Repr, DecidableEq

/-- `Breeding` of the horses package (the `YearBord` typo is the source's). -/
structure HBreeding where
  relation : String
  name : String
  bred : String
  yearBord : Int
  deriving Repr, DecidableEq

/-- `Rating` of the horses package. -/
structure HRating where
  rtype : String
  value : Int
  deriving Repr, DecidableEq

/-- `CardHorse`. -/
structure CardHorse where
  id : Int
  name : String
  bred : String
  status : String
  clothNumber : Int
  drawnStall : Int
  ageInYears : Int
  weight : UnitsValueText
  weightPenalty : UnitsValue
  trainer : CardTrainer
  ownerName : String
  breederName : String
  jockey : CardJockey
  jockeyColours : String
  jockeyColoursFile : String
  colours : List String
  sex : String
  breeding : List HBreeding
  deriving Repr, DecidableEq

/-- Raw attribute/child data seen by `CardHorse.UnmarshalXML`. -/
structure RawCardHorse where
  id : Int
  name : String
  bred : String
  status : Option String
  clothNumber : Int
  drawnStall : Int
  ageYears : Int
  weight : UnitsValueText
  weightPenalty : UnitsValue
  trainer : CardTrainer
  ownerName : String
  breederName : String
  jockey : CardJockey
  jockeyColoursFilename : String
  jockeyColoursDescription : String
  colours : List String
  sex : String
  breeding : List HBreeding
  deriving Repr, DecidableEq

/-- `CardHorse.UnmarshalXML` from `src/unnamed/part_001`: the raw struct is
pre-initialised with `Status: CardHorseRunner` ("Runner"), and the status is
never validated against its documented closed set — the function has no
failure path of its own. -/
def cardHorseUnmarshal (raw : RawCardHorse) : CardHorse :=
  { id := raw.id, name := raw.name, bred := raw.bred,
    status := raw.status.getD "Runner",
    clothNumber := raw.clothNumber, drawnStall := raw.drawnStall,
    ageInYears := raw.ageYears, weight := raw.weight,
    weightPenalty := raw.weightPenalty, trainer := raw.trainer,
    ownerName := raw.ownerName, breederName := raw.breederName,
    jockey := raw.jockey, jockeyColours := raw.jockeyColoursDescription,
    jockeyColoursFile := raw.jockeyColoursFilename, colours := raw.colours,
    sex := raw.sex, breeding := raw.breeding }

/-- One `Prize` element: finishing position and amount. -/
structure PrizeEntry where
  position : Int
  amount : Int
  deriving Repr, DecidableEq

/-- The prize-map construction loop of `CardRace.UnmarshalXML`:
`prizes[prize.Position] = decimal.FromInt(prize.Amount)` over the entries in
document order — later entries overwrite earlier ones. -/
def buildPrizes (entries : List PrizeEntry) : Int → Option DecimalNum :=
  entries.foldl
    (fun m p => fun pos => if pos = p.position then some (decFromInt p.amount) else m pos)
    (fun _ => none)

/-- `CardRace` (`class` is a Lean keyword, rendered `raceClass`; the prize
map is a function from position). -/
structure CardRace where
  id : Int
  startTime : GoTime
  raceType : String
  trackType : String
  handicap : Bool
  trifecta : Bool
  showcase : Bool
  raceClass : Int
  maxRunners : Int
  numFences : Int
  title : String
  addedMoney : Option MoneyValue
  penaltyValue : Option MoneyValue
  prizeCurrency : String
  prizes : Int → Option DecimalNum
  eligibility : String
  distance : UnitsValueText
  ratings : List HRating
  horses : List CardHorse

/-- Raw attribute/child data seen by `CardRace.UnmarshalXML` (`date` and
`time` are plain string attributes in the source). -/
structure RawCardRace where
  id : Int
  date : String
  time : String
  raceType : String
  trackType : String
  handicap : Option String
  trifecta : Option String
  showcase : Option String
  raceClass : Int
  maxRunners : Int
  numFences : Int
  title : String
  addedMoney : Option MoneyValue
  penaltyValue : Option MoneyValue
  prizeCurrency : String
  prizeEntries : List PrizeEntry
  eligibility : String
  distance : UnitsValueText
  ratings : List HRating
  horses : List RawCardHorse

/-- `CardRace.UnmarshalXML` from `src/unnamed/part_001`: `DecodeElement`
runs the Yes/No attribute unmarshalers and decodes the child horses; then
`time.Parse("20060102T1504-0700", date+"T"+time)` builds the start time
(failing with the wrapping message); then the prize map is built by the
overwrite loop.  `RaceType` and `TrackType` are never validated. -/
def cardRaceUnmarshal (raw : RawCardRace) : Except String CardRace :=
  match optYesNo "handicap" raw.handicap with
  | .error e => .error e
  | .ok handicap =>
  match optYesNo "trifecta" raw.trifecta with
  | .error e => .error e
  | .ok trifecta =>
  match optYesNo "showcase" raw.showcase with
  | .error e => .error e
  | .ok showcase =>
  match parseLayoutFull18 (raw.date.data ++ 'T' :: raw.time.data) with
  | none => .error "parsing CardRace.date and CardRace.time: parse error"
  | some startTime =>
      .ok { id := raw.id, startTime := startTime, raceType := raw.raceType,
            trackType := raw.trackType, handicap := handicap, trifecta := trifecta,
            showcase := showcase, raceClass := raw.raceClass,
            maxRunners := raw.maxRunners, numFences := raw.numFences,
            title := raw.title, addedMoney := raw.addedMoney,
            penaltyValue := raw.penaltyValue, prizeCurrency := raw.prizeCurrency,
            prizes := buildPrizes raw.prizeEntries, eligibility := raw.eligibility,
            distance := raw.distance, ratings := raw.ratings,
            horses := raw.horses.map cardHorseUnmarshal }

/-- `CardMeeting`. -/
structure CardMeeting where
  id : Int
  country : String
  course : String
  date : GoTime
  status : String
  weatherForecast : String
  inspection : GoTime
  abandonedReason : String
  drawAdvantage : String
  advancedGoing : String
  races : List CardRace

/-- Raw attribute/child data seen by `CardMeeting.UnmarshalXML`; the
`Inspection` child (decoded by the out-of-`src/` horses `xmlTimeElement`)
enters as an already-decoded value. -/
structure RawCardMeeting where
  id : Int
  country : String
  course : String
  date : Option String
  status : Option String
  weatherForecast : String
  inspection : GoTime
  abandonedReason : String
  drawAdvantage : String
  advancedGoing : String
  races : List RawCardRace

/-- Modelled from the spec: the horses package's `xmlDate` attribute parser
is defined in a source file not under `src/`; per the field documentation it
reads an ISO 8601:1988 `yyyymmdd` date, modelled with the same
fixed-layout parser as the greyhound length-8 branch. -/
def horsesXmlDate (value : String) : Except String GoTime :=
  timeParseResult "date" value (parseLayoutDate8 value.data)

/-- An absent `date` attribute leaves the zero `time.Time`. -/
def optHorsesDate : Option String → Except String GoTime
  | none => .ok goZeroTime
  | some v => horsesXmlDate v

/-- `CardMeeting.UnmarshalXML` from `src/unnamed/part_001`: the raw struct
has an empty initialiser, so an absent `status` attribute leaves the empty
string (no Dormant default), and the status is never validated.
`DecodeElement` decodes the date attribute and the child races, but the
assembled `CardMeeting` omits the `Races` field — the decoded races are
dropped and the result's race list is the zero value (empty). -/
def cardMeetingUnmarshal (raw : RawCardMeeting) : Except String CardMeeting :=
  match optHorsesDate raw.date with
  | .error e => .error e
  | .ok date =>
  match Greyhounds.exceptMapM cardRaceUnmarshal raw.races with
  | .error e => .error e
  | .ok _races =>
      .ok { id := raw.id, country := raw.country, course := raw.course,
            date := date, status := raw.status.getD "",
            weatherForecast := raw.weatherForecast, inspection := raw.inspection,
            abandonedReason := raw.abandonedReason,
            drawAdvantage := raw.drawAdvantage,
            advancedGoing := raw.advancedGoing,
            races := [] }

/-- `RacingCard.UnmarshalXML` from `src/unnamed/part_001`: the document is
the list of its meetings. -/
def racingCardUnmarshal (raws : List RawCardMeeting) : Except String (List CardMeeting) :=
  Greyhounds.exceptMapM cardMeetingUnmarshal raws

end Horses

namespace Horses

/-- What a successful `CardMeeting.UnmarshalXML` guarantees: the status is
the raw attribute value defaulting to the empty string (never validated),
and the assembled race list is empty. -/
theorem cardMeetingUnmarshal_ok (raw : RawCardMeeting) (m : CardMeeting)
    (h : cardMeetingUnmarshal raw = .ok m) :
    m.status = raw.status.getD "" ∧ m.races = [] := by
  unfold cardMeetingUnmarshal at h
  split at h
  · exact Except.noConfusion h
  split at h
  · exact Except.noConfusion h
  cases Except.ok.inj h
  exact ⟨rfl, rfl⟩

/-- A successful `CardRace.UnmarshalXML` carries exactly the prize map built
by the overwrite loop. -/
theorem cardRaceUnmarshal_prizes (raw : RawCardRace) (race : CardRace)
    (h : cardRaceUnmarshal raw = .ok race) :
    race.prizes = buildPrizes raw.prizeEntries := by
  unfold cardRaceUnmarshal at h
  split at h
  · exact Except.noConfusion h
  split at h
  · exact Except.noConfusion h
  split at h
  · exact Except.noConfusion h
  split at h
  · exact Except.noConfusion h
  cases Except.ok.inj h
  rfl

theorem buildPrizes_aux (entries : List PrizeEntry) (init : Int → Option DecimalNum)
    (pos : Int) :
    entries.foldl
        (fun m p => fun q => if q = p.position then some (decFromInt p.amount) else m q)
        init pos =
      (entries.reverse.find? (fun p => p.position == pos)).elim (init pos)
        (fun p => some (decFromInt p.amount)) := by
  induction entries generalizing init with
  | nil => simp
  | cons p ps ih =>
    simp only [List.foldl_cons, List.reverse_cons]
    rw [ih, List.find?_append]
    cases hf : ps.reverse.find? (fun q => q.position == pos) with
    | some q => simp
    | none =>
      simp only [Option.none_orElse, Option.elim]
      cases hb : (p.position == pos) with
      | true =>
        have hpos : pos = p.position := (beq_iff_eq.1 hb).symm
        simp [List.find?, hb, if_pos hpos]
      | false =>
        have hpos : ¬(pos = p.position) := fun hc => by
          rw [hc] at hb
          simp at hb
        simp [List.find?, hb, if_neg hpos]

/-- The prize map built by the loop maps each position to the amount of the
last source entry carrying that position, and to nothing otherwise. -/
theorem buildPrizes_find (entries : List PrizeEntry) (pos : Int) :
    buildPrizes entries pos =
      (entries.reverse.find? (fun p => p.position == pos)).map
        (fun p => decFromInt p.amount) := by
  unfold buildPrizes
  rw [buildPrizes_aux]
  cases entries.reverse.find? (fun p => p.position == pos) <;> rfl

end Horses

/-! ### Example documents used by the witnesses and counterexamples -/

/-- A concrete raw greyhound race whose attributes all decode. -/
def exRaceRaw : Greyhounds.RawRace :=
  { revision := 7, raceNumber := 1, time := some "1927+0100", rtype := some "Flat",
    handicap := none, raceClass := "A7", distance := 380, title := "", prizes := "",
    offTime := none, going := "", winTime := "", state := none, bags := none,
    tricast := none, comments := [], traps := [], nonRunners := [], dividends := none }

/-- The race `exRaceRaw` decodes to (state defaulted to Dormant, time-only
start time awaiting the meeting date). -/
def exRace : Greyhounds.Race :=
  { revision := 7, raceNumber := 1, time := ⟨0, 1, 1, 19, 27, 0, 60⟩, rtype := "Flat",
    handicap := false, raceClass := "A7", distance := 380, title := "", prizes := "",
    offTime := goZeroTime, going := "", winTime := 0, state := "Dormant", bags := false,
    tricast := false, comments := [], traps := [], nonRunners := [], dividends := none }

/-- A concrete raw greyhound meeting (no state attribute) holding `exRaceRaw`. -/
def exMeetingRaw : Greyhounds.RawMeeting :=
  { meetingID := 337361, track := "Crayford", country := "", date := some "20180414",
    state := none, races := [exRaceRaw], reserveDogs := [] }

/-- The meeting `exMeetingRaw` decodes to: state Dormant, race time merged
with the meeting date. -/
def exMeeting : Greyhounds.Meeting :=
  { meetingID := 337361, track := "Crayford", country := "",
    date := ⟨2018, 4, 14, 0, 0, 0, 0⟩, state := "Dormant",
    races := [{ exRace with time := ⟨2018, 4, 14, 19, 27, 0, 60⟩ }],
    reserveDogs := [] }

/-- A minimal raw greyhound race with everything absent except the given
type and state attributes. -/
def minRaceRaw (rtype state : Option String) : Greyhounds.RawRace :=
  { revision := 0, raceNumber := 0, time := none, rtype := rtype, handicap := none,
    raceClass := "", distance := 0, title := "", prizes := "", offTime := none,
    going := "", winTime := "", state := state, bags := none, tricast := none,
    comments := [], traps := [], nonRunners := [], dividends := none }

/-- A minimal raw greyhound meeting with the given state attribute. -/
def minMeetingRaw (state : Option String) : Greyhounds.RawMeeting :=
  { meetingID := 0, track := "", country := "", date := none, state := state,
    races := [], reserveDogs := [] }

/-- A concrete raw horse card race with duplicate prize positions. -/
def exCardRaceRaw : Horses.RawCardRace :=
  { id := 7, date := "20190115", time := "1504+0100", raceType := "Flat",
    trackType := "Turf", handicap := none, trifecta := none, showcase := none,
    raceClass := 1, maxRunners := 10, numFences := 0, title := "", addedMoney := none,
    penaltyValue := none, prizeCurrency := "GBP",
    prizeEntries := [⟨1, 100⟩, ⟨1, 200⟩, ⟨2, 50⟩],
    eligibility := "", distance := ⟨""⟩, ratings := [], horses := [] }

/-- The card race `exCardRaceRaw` decodes to. -/
def exCardRace : Horses.CardRace :=
  { id := 7, startTime := ⟨2019, 1, 15, 15, 4, 0, 60⟩, raceType := "Flat",
    trackType := "Turf", handicap := false, trifecta := false, showcase := false,
    raceClass := 1, maxRunners := 10, numFences := 0, title := "", addedMoney := none,
    penaltyValue := none, prizeCurrency := "GBP",
    prizes := Horses.buildPrizes [⟨1, 100⟩, ⟨1, 200⟩, ⟨2, 50⟩],
    eligibility := "", distance := ⟨""⟩, ratings := [], horses := [] }

/-- A concrete raw horse card meeting with a Race child and a chosen status
attribute. -/
def exCardMeetingRaw (status : Option String) : Horses.RawCardMeeting :=
  { id := 1, country := "GB", course := "Aintree", date := none, status := status,
    weatherForecast := "", inspection := goZeroTime, abandonedReason := "",
    drawAdvantage := "", advancedGoing := "", races := [exCardRaceRaw] }

/-- The card meeting `exCardMeetingRaw status` decodes to: the status string
passes through unvalidated and the race list is dropped. -/
def exCardMeeting (status : String) : Horses.CardMeeting :=
  { id := 1, country := "GB", course := "Aintree", date := goZeroTime, status := status,
    weatherForecast := "", inspection := goZeroTime, abandonedReason := "",
    drawAdvantage := "", advancedGoing := "", races := [] }

/-- A concrete raw card horse without a status attribute. -/
def exCardHorseRaw : Horses.RawCardHorse :=
  { id := 3, name := "Dobbin", bred := "IRE", status := none, clothNumber := 1,
    drawnStall := 2, ageYears := 4, weight := ⟨""⟩, weightPenalty := ⟨""⟩,
    trainer := ⟨1, "", "", ""⟩, ownerName := "", breederName := "",
    jockey := ⟨2, "", ⟨""⟩⟩, jockeyColoursFilename := "", jockeyColoursDescription := "",
    colours := [], sex := "g", breeding := [] }

/-- A concrete raw greyhound feed document. -/
def exDogRaw : Greyhounds.RawDogRacing :=
  { rtype := some "Race", state := "", meetings := [] }

/-! ### C2: closed-code validation -/

/-- C2 (amended): the greyhound decoders validate every closed-code field —
a successful decode never carries an invalid message type, meeting state,
race state or race type, and an invalid code makes decoding fail with the
error naming the field and the offending code — but the horse-card decoders
do NOT validate the meeting status or the horse status: those codes pass
through unchecked, so documents carrying unknown codes there decode
successfully. -/
theorem closed_code_validation :
    (∀ raw doc, Greyhounds.dogRacingUnmarshal raw = .ok doc →
      Greyhounds.MessageType.isValid doc.rtype = true) ∧
    (∀ raw m, Greyhounds.xmlMeetingUnmarshal raw = .ok m →
      Greyhounds.MeetingState.isValid m.state = true ∧
        ∀ race ∈ m.races, Greyhounds.RaceState.isValid race.state = true ∧
          Greyhounds.RaceType.isValid race.rtype = true) ∧
    (∀ raw r, Greyhounds.xmlRaceUnmarshal raw = .ok r →
      Greyhounds.RaceState.isValid r.state = true ∧
        Greyhounds.RaceType.isValid r.rtype = true) ∧
    (∀ v, Greyhounds.MessageType.isValid v = false →
      Greyhounds.dogRacingUnmarshal { rtype := some v, state := "", meetings := [] } =
        .error (Greyhounds.invalidEnum "Message type" v)) ∧
    (∀ v, Greyhounds.RaceType.isValid v = false →
      Greyhounds.xmlRaceUnmarshal (minRaceRaw (some v) none) =
        .error (Greyhounds.invalidEnum "Race type" v)) ∧
    (∀ v, Greyhounds.RaceState.isValid v = false →
      Greyhounds.xmlRaceUnmarshal (minRaceRaw (some "Flat") (some v)) =
        .error (Greyhounds.invalidEnum "Race state" v)) ∧
    (∀ v, Greyhounds.MeetingState.isValid v = false →
      Greyhounds.xmlMeetingUnmarshal (minMeetingRaw (some v)) =
        .error (Greyhounds.invalidEnum "Meeting state" v)) ∧
    (∀ raw, (Horses.cardHorseUnmarshal raw).status = raw.status.getD "Runner") ∧
    (∀ raw m, Horses.cardMeetingUnmarshal raw = .ok m →
      m.status = raw.status.getD "") := by
  refine ⟨?_, ?_, ?_, ?_, ?_, ?_, ?_, ?_, ?_⟩
  · intro raw doc h
    exact (Greyhounds.dogRacingUnmarshal_ok raw doc h).2
  · intro raw m h
    have hm := Greyhounds.xmlMeetingUnmarshal_ok raw m h
    exact ⟨hm.2.1, hm.2.2⟩
  · intro raw r h
    have hr := Greyhounds.xmlRaceUnmarshal_ok raw r h
    exact ⟨hr.2.2.1, hr.2.2.2⟩
  · intro v hv
    simp [Greyhounds.dogRacingUnmarshal, Greyhounds.exceptMapM, hv]
  · intro v hv
    simp [Greyhounds.xmlRaceUnmarshal, minRaceRaw, optTimeAttr, optYesNo, hv]
  · intro v hv
    simp [Greyhounds.xmlRaceUnmarshal, minRaceRaw, optTimeAttr, optYesNo, hv,
      Greyhounds.RaceType.isValid]
  · intro v hv
    simp [Greyhounds.xmlMeetingUnmarshal, minMeetingRaw, optTimeAttr,
      Greyhounds.exceptMapM, hv]
  · intro raw
    rfl
  · intro raw m h
    exact (Horses.cardMeetingUnmarshal_ok raw m h).1

/-- Witness for C2's amended statement: a valid greyhound message decodes
with its validated code; an invalid race type fails naming the code; a card
horse without a status defaults to Runner. -/
theorem closed_code_validation_witness :
    Greyhounds.MessageType.isValid
        (⟨"Race", "", []⟩ : Greyhounds.DogRacing).rtype = true ∧
      Greyhounds.xmlRaceUnmarshal (minRaceRaw (some "Bogus") none) =
        .error (Greyhounds.invalidEnum "Race type" "Bogus") ∧
      (Horses.cardHorseUnmarshal exCardHorseRaw).status = "Runner" :=
  ⟨closed_code_validation.1 exDogRaw ⟨"Race", "", []⟩ (by decide),
    closed_code_validation.2.2.2.2.1 "Bogus" (by decide),
    closed_code_validation.2.2.2.2.2.2.2.1 exCardHorseRaw⟩

/-- Counterexample to C2 as stated: a horse-card meeting whose `status`
attribute carries the unknown code `"Bogus"` (outside
{Dormant, Inspection, Abandoned}) decodes successfully, carrying the code
through — no `InvalidEnumValueError` is raised. -/
theorem closed_code_validation_counterexample :
    Horses.cardMeetingUnmarshal (exCardMeetingRaw (some "Bogus")) =
        .ok (exCardMeeting "Bogus") ∧
      ¬("Bogus" = "Dormant" ∨ "Bogus" = "Inspection" ∨ "Bogus" = "Abandoned") ∧
      (Horses.cardHorseUnmarshal { exCardHorseRaw with status := some "Zombie" }).status
        = "Zombie" := by
  refine ⟨rfl, by decide, rfl⟩

/-! ### C6: default states on absent attributes -/

/-- C6 (amended): when the state/status attribute is absent, a successfully
decoded greyhound Meeting and greyhound Race carry the documented initial
state Dormant; a horse-card Meeting, whose raw struct has no pre-initialised
default, carries the empty string instead. -/
theorem absent_state_defaults :
    (∀ raw m, raw.state = none → Greyhounds.xmlMeetingUnmarshal raw = .ok m →
      m.state = "Dormant") ∧
    (∀ raw r, raw.state = none → Greyhounds.xmlRaceUnmarshal raw = .ok r →
      r.state = "Dormant") ∧
    (∀ raw m, raw.status = none → Horses.cardMeetingUnmarshal raw = .ok m →
      m.status = "") := by
  refine ⟨?_, ?_, ?_⟩
  · intro raw m hnone h
    rw [(Greyhounds.xmlMeetingUnmarshal_ok raw m h).1, hnone]
    rfl
  · intro raw r hnone h
    rw [(Greyhounds.xmlRaceUnmarshal_ok raw r h).1, hnone]
    rfl
  · intro raw m hnone h
    rw [(Horses.cardMeetingUnmarshal_ok raw m h).1, hnone]
    rfl

/-- Witness for C6's amended statement: concrete meeting/race documents
without a state attribute decode to Dormant (greyhounds) and to the empty
status (horse card). -/
theorem absent_state_defaults_witness :
    Greyhounds.xmlMeetingUnmarshal exMeetingRaw = .ok exMeeting ∧
      exMeeting.state = "Dormant" ∧
      Greyhounds.xmlRaceUnmarshal exRaceRaw = .ok exRace ∧
      exRace.state = "Dormant" ∧
      (exCardMeeting "").status = "" :=
  ⟨by decide,
    absent_state_defaults.1 exMeetingRaw exMeeting rfl (by decide),
    by decide,
    absent_state_defaults.2.1 exRaceRaw exRace rfl (by decide),
    absent_state_defaults.2.2 (exCardMeetingRaw none) (exCardMeeting "") rfl rfl⟩

/-- Counterexample to C6 as stated: a horse-card meeting document without a
status attribute decodes successfully, but its status is the empty string,
not the claimed initial value Dormant. -/
theorem absent_state_defaults_counterexample :
    Horses.cardMeetingUnmarshal (exCardMeetingRaw none) = .ok (exCardMeeting "") ∧
      (exCardMeeting "").status ≠ "Dormant" :=
  ⟨rfl, by decide⟩

/-! ### C8: prize map, last entry wins -/

/-- C8: in every successfully decoded card race the prize mapping sends each
finishing position to the amount of the last Prize entry with that position
(duplicates overwrite), and positions absent from the source are absent from
the mapping. -/
theorem prize_map_last_wins (raw : Horses.RawCardRace) (race : Horses.CardRace)
    (pos : Int) (h : Horses.cardRaceUnmarshal raw = .ok race) :
    race.prizes pos =
      (raw.prizeEntries.reverse.find? (fun p => p.position == pos)).map
        (fun p => decFromInt p.amount) := by
  rw [Horses.cardRaceUnmarshal_prizes raw race h]
  exact Horses.buildPrizes_find raw.prizeEntries pos

/-- Witness for C8 at `exCardRaceRaw` (entries positions 1↦100, 1↦200,
2↦50): position 1 carries the later amount 200, position 3 is absent. -/
theorem prize_map_last_wins_witness :
    exCardRace.prizes 1 = some (decFromInt 200) ∧ exCardRace.prizes 3 = none := by
  constructor
  · rw [prize_map_last_wins exCardRaceRaw exCardRace 1 rfl]
    rfl
  · rw [prize_map_last_wins exCardRaceRaw exCardRace 3 rfl]
    rfl

/-! ### C9: card meetings drop their decoded races -/

/-- C9: every successfully decoded horse-card meeting has an empty race
list — `CardMeeting.UnmarshalXML` decodes the nested races (their failures
abort the meeting) but never copies them into the assembled value. -/
theorem cardMeeting_races_empty (raw : Horses.RawCardMeeting)
    (m : Horses.CardMeeting) (h : Horses.cardMeetingUnmarshal raw = .ok m) :
    m.races = [] :=
  (Horses.cardMeetingUnmarshal_ok raw m h).2

/-- Witness for C9: a card-meeting document with one Race element decodes
successfully and the result's race list is nevertheless empty. -/
theorem cardMeeting_races_empty_witness :
    Horses.cardMeetingUnmarshal (exCardMeetingRaw (some "Dormant")) =
        .ok (exCardMeeting "Dormant") ∧
      (exCardMeeting "Dormant").races = [] :=
  ⟨rfl, cardMeeting_races_empty (exCardMeetingRaw (some "Dormant"))
    (exCardMeeting "Dormant") rfl⟩
